import Mathlib

set_option maxRecDepth 100000

/-!
Verification of the profile MCP server (src/mcp-server.py).

The development shallowly embeds the data of the server (PROFILE, SKILLS,
SKILL_CATEGORIES), its tool handlers (get_contact, get_all_skills, get_skill,
get_skills_by_category, search_skills, ...) and the dispatcher (call_tool).

Python strings are embedded as Lean strings; the text held by the store is plain ASCII,
on which Python str.lower acts exactly as the ASCII case map Char.toLower.
str.upper is embedded with its full one-to-many case mapping for U+00DF
("SS") on top of the ASCII map, since queries range over arbitrary strings
and that mapping matters there.  Python dicts preserve insertion order, so each
dict is embedded as an association list in literal order; dict lookup is
List.lookup (first matching key).  A handler that can raise is embedded as an
Except-valued function; the try/except of the dispatcher is the Except eliminator.
Apostrophes and braces inside string literals are written with \x27 / \x7b
escapes throughout.
-/

namespace ProfileMcp

/-! ## Python string primitives -/

/-- Embedding of Python str.lower, character by character (ASCII case map;
all text in this store is ASCII). -/
def pyLower (s : String) : String :=
  String.mk (s.data.map Char.toLower)

/-- Does the needle occur at the head of the haystack? -/
def matchesAt : List Char → List Char → Bool
  | [], _ => true
  | _ :: _, [] => false
  | a :: as, b :: bs => a == b && matchesAt as bs

/-- Does the needle occur as a contiguous run anywhere in the haystack? -/
def hasSub (ndl : List Char) : List Char → Bool
  | [] => matchesAt ndl []
  | c :: rest => matchesAt ndl (c :: rest) || hasSub ndl rest

/-- Embedding of the Python membership test `ndl in hay` on strings:
substring containment. -/
def pyContains (hay ndl : String) : Bool :=
  hasSub ndl.data hay.data

/-- Embedding of Python `" ".join(xs)`. -/
def spaceJoin (xs : List String) : String :=
  String.intercalate (" ") xs

/-! ## Python values

The JSON-like values exchanged with the server: argument payloads and the
dicts the handlers build before `json.dumps`. -/

inductive PyValue where
  | pyNone
  | bool (b : Bool)
  | int (n : Int)
  | str (s : String)
  | list (xs : List PyValue)
  | dict (entries : List (String × PyValue))

mutual

/-- Embedding of Python repr on these values (single-quoted strings,
True/False/None, bracketed lists, braced dicts). -/
def pyRepr : PyValue → String
  | .pyNone => "None"
  | .bool true => "True"
  | .bool false => "False"
  | .int n => toString n
  | .str s => "\x27" ++ s ++ "\x27"
  | .list xs => "[" ++ String.intercalate (", ") (pyReprList xs) ++ "]"
  | .dict es => "\x7b" ++ String.intercalate (", ") (pyReprDict es) ++ "\x7d"

/-- repr of each element of a list value. -/
def pyReprList : List PyValue → List String
  | [] => []
  | v :: vs => pyRepr v :: pyReprList vs

/-- repr of each entry of a dict value. -/
def pyReprDict : List (String × PyValue) → List String
  | [] => []
  | e :: es => ("\x27" ++ e.1 ++ "\x27: " ++ pyRepr e.2) :: pyReprDict es

end

/-- Embedding of Python str() on these values: the identity on strings and
repr on everything else (str of int/bool/None coincides with repr). -/
def pyStr : PyValue → String
  | .str s => s
  | v => pyRepr v

/-- Embedding of Python truthiness (`if v:`): False, 0, empty string, empty
list, empty dict and None are falsy; everything else is truthy. -/
def pyTruthy : PyValue → Bool
  | .pyNone => false
  | .bool b => b
  | .int n => !(n == 0)
  | .str s => !(s == "")
  | .list xs => !xs.isEmpty
  | .dict es => !es.isEmpty

/-- Look a key up in a dict value (none on non-dicts and absent keys). -/
def dictGet : PyValue → String → Option PyValue
  | .dict es, k => es.lookup k
  | _, _ => none

/-- Project a dict entry known to be a string. -/
def dictGetStr (v : PyValue) (k : String) : Option String :=
  match dictGet v k with
  | some (.str s) => some s
  | _ => none

/-- Project a list value known to consist of strings. -/
def asStrList : List PyValue → Option (List String)
  | [] => some []
  | .str s :: rest => (asStrList rest).map (s :: ·)
  | _ :: _ => none

/-- Project a dict entry known to be a list of strings. -/
def dictGetStrList (v : PyValue) (k : String) : Option (List String) :=
  match dictGet v k with
  | some (.list vs) => asStrList vs
  | _ => none

/-! ## The profile data (src/mcp-server.py lines 30-52) -/

def PROFILE_name : String := "Madhavi K"

def PROFILE_university : String := "Purdue University"

/-- The education sub-dict of PROFILE (lines 32-36). -/
def PROFILE_education : List (String × PyValue) :=
  [("degree", .str ("Masters")),
   ("university", .str PROFILE_university),
   ("field", .str ("Computer Science / Engineering"))]

/-- The contact sub-dict of PROFILE.  The source (lines 37-40) is missing the
comma between its two entries, so the file as written is a Python SyntaxError
and the module cannot load; this definition models the evident intent — two
separately keyed string fields — which get_contact (lines 342-352) itself
relies on by reading both keys. -/
def PROFILE_contact : List (String × PyValue) :=
  [("linkedin", .str ("https://linkedin.com/in/madhaviai")),
   ("linkedin_username", .str ("madhaviai"))]

def PROFILE_job_titles : List String :=
  ["AI Systems Engineer",
   "Applied LLM Engineer",
   "Software Engineer, Agents",
   "Inference Platform Engineer"]

def PROFILE_summary : String :=
  "AI Systems Engineer with a Master\x27s from Purdue University, specializing in " ++
  "building end-to-end LLM pipelines, agentic workflows, and scalable AI infrastructure. " ++
  "Expert in MCP development, cloud-native architectures, and production ML systems."

/-! ## The skill store (src/mcp-server.py lines 54-159) -/

structure Skill where
  name : String
  description : String
  keywords : List String

/-- The SKILLS dict, in literal (= iteration) order. -/
def SKILLS : List (String × Skill) :=
  [("llm_systems_engineering",
    ⟨"LLM Systems Engineering",
     "Builds end-to-end LLM pipelines, agentic workflows, and context-optimized " ++
     "systems using advanced tokenization, retrieval, and orchestration patterns.",
     ["LLM", "pipelines", "agentic workflows", "tokenization", "RAG", "orchestration"]⟩),
   ("agentic_automation",
    ⟨"Agentic Automation",
     "Designs autonomous, multi-step, self-correcting AI agents with tool-use, " ++
     "workflow chaining, and intelligent execution loops.",
     ["AI agents", "autonomous systems", "tool-use", "workflow chaining", "self-correcting"]⟩),
   ("mcp_development",
    ⟨"MCP Development",
     "Creates scalable Model Context Protocol servers and automation frameworks " ++
     "for seamless AI tool integration across product ecosystems.",
     ["MCP", "Model Context Protocol", "tool integration", "automation frameworks"]⟩),
   ("ai_infrastructure",
    ⟨"AI Infrastructure Engineering",
     "Architects cloud-native, high-performance AI systems leveraging Kubernetes, " ++
     "containers, networking, IaC, and distributed infra patterns.",
     ["Kubernetes", "containers", "IaC", "cloud-native", "distributed systems"]⟩),
   ("machine_learning",
    ⟨"Machine Learning Engineering",
     "Develops robust ML models, anomaly detection systems, and data-driven pipelines " ++
     "with strong emphasis on model behavior, evaluation, and interpretability.",
     ["ML models", "anomaly detection", "model evaluation", "interpretability"]⟩),
   ("backend_api",
    ⟨"Backend & API Engineering",
     "Builds scalable backend services, microservices, and automation APIs in Python, " ++
     "Go, Java, and TypeScript with clean, production-ready code.",
     ["Python", "Go", "Java", "TypeScript", "microservices", "APIs", "backend"]⟩),
   ("cloud_platforms",
    ⟨"Cloud Platforms (AWS, Azure, GCP)",
     "Designs, deploys, and optimizes multi-cloud infrastructure with secure " ++
     "architecture, performance tuning, and cost-efficient scaling.",
     ["AWS", "Azure", "GCP", "multi-cloud", "infrastructure", "scaling"]⟩),
   ("devops_cicd",
    ⟨"DevOps & CI/CD",
     "Implements automated build and deployment systems using Jenkins, GitLab, " ++
     "Azure DevOps, Spinnaker, and advanced Git workflows.",
     ["Jenkins", "GitLab", "Azure DevOps", "Spinnaker", "CI/CD", "automation"]⟩),
   ("data_streaming",
    ⟨"Data & Streaming Systems",
     "Constructs large-scale data ingestion, ETL, search, and streaming pipelines " ++
     "using Kafka, Elasticsearch, Redis, PostgreSQL, and modern storage stacks.",
     ["Kafka", "Elasticsearch", "Redis", "PostgreSQL", "ETL", "streaming"]⟩),
   ("security_threat_intel",
    ⟨"Security & Threat Intelligence",
     "Builds ML-powered threat detection, SIEM automation, and risk scoring systems " ++
     "with secure, enterprise-grade cloud architectures.",
     ["threat detection", "SIEM", "risk scoring", "security", "ML-powered"]⟩),
   ("monitoring_observability",
    ⟨"Monitoring & Observability",
     "Implements full-stack monitoring, logging, and alerting using Prometheus, " ++
     "Grafana, Kibana, and Dynatrace for system reliability and traceability.",
     ["Prometheus", "Grafana", "Kibana", "Dynatrace", "monitoring", "observability"]⟩),
   ("open_source",
    ⟨"Open-Source Engineering",
     "Contributes to developer tooling, Kubernetes ecosystems, and AI frameworks " ++
     "with high-quality code, documentation, and community-driven innovation.",
     ["open-source", "developer tooling", "Kubernetes", "AI frameworks"]⟩),
   ("research_optimization",
    ⟨"Research & Model Optimization",
     "Performs research on tokenization, representation learning, model robustness, " ++
     "and data efficiency to enhance LLM interpretability and performance.",
     ["research", "tokenization", "representation learning", "model optimization"]⟩)]

/-- The SKILL_CATEGORIES dict (lines 161-167), in literal order. -/
def SKILL_CATEGORIES : List (String × List String) :=
  [("ai_ml",
    ["llm_systems_engineering", "agentic_automation", "mcp_development",
     "machine_learning", "research_optimization"]),
   ("infrastructure", ["ai_infrastructure", "cloud_platforms", "devops_cicd"]),
   ("backend", ["backend_api", "data_streaming"]),
   ("security_ops", ["security_threat_intel", "monitoring_observability"]),
   ("community", ["open_source"])]

/-! ## Result envelopes and errors

A CallToolResult carries a list of text contents.  A successful handler
serializes its result dict — Content.json v stands for
TextContent(text=json.dumps(v, indent=2)); domain messages and error strings
are plain text — Content.text s stands for TextContent(text=s). -/

inductive Content where
  | json (v : PyValue)
  | text (s : String)

structure CallToolResult where
  content : List Content

/-- A result whose single content is the serialization of a dict. -/
def jsonResult (v : PyValue) : CallToolResult :=
  ⟨[.json v]⟩

/-- A result whose single content is a plain string. -/
def textResult (s : String) : CallToolResult :=
  ⟨[.text s]⟩

/-- The exceptions the embedded code can raise: KeyError from a mapping
subscript (`arguments["skill_id"]`, `SKILLS[skill_id]`). -/
inductive PyErr where
  | keyError (k : String)

/-- Embedding of Python str(e) for these exceptions: str of a KeyError is the
repr of its key. -/
def pyErrStr : PyErr → String
  | .keyError k => "\x27" ++ k ++ "\x27"

/-! ## Tool handlers (src/mcp-server.py lines 326-538)

Each handler is Except-valued; a handler that cannot raise always returns
Except.ok. -/

/-- get_profile (lines 326-339). -/
def get_profile : Except PyErr CallToolResult :=
  .ok (jsonResult (.dict
    [("name", .str PROFILE_name),
     ("education", .dict PROFILE_education),
     ("contact", .dict PROFILE_contact),
     ("job_titles", .list (PROFILE_job_titles.map .str)),
     ("summary", .str PROFILE_summary),
     ("total_skills", .int SKILLS.length),
     ("skill_categories", .list ((SKILL_CATEGORIES.map Prod.fst).map .str))]))

/-- Embedding of a Python dict subscript `es[k]`: the value, or a KeyError
when the key is absent. -/
def dictItem (es : List (String × PyValue)) (k : String) : Except PyErr PyValue :=
  match es.lookup k with
  | some v => .ok v
  | none => .error (.keyError k)

/-- get_contact (lines 342-352); subscripts both contact keys. -/
def get_contact : Except PyErr CallToolResult :=
  (dictItem PROFILE_contact ("linkedin")).bind (fun li =>
    (dictItem PROFILE_contact ("linkedin_username")).bind (fun lu =>
      .ok (jsonResult (.dict
        [("name", .str PROFILE_name),
         ("linkedin", li),
         ("linkedin_username", lu),
         ("connect_message",
          .str ("Feel free to connect on LinkedIn to discuss AI, LLMs, and engineering!"))]))))

/-- get_education (lines 355-367). -/
def get_education : Except PyErr CallToolResult :=
  .ok (jsonResult (.dict
    [("education", .dict PROFILE_education),
     ("highlights", .list
       [.str ("Master\x27s degree from " ++ PROFILE_university),
        .str ("Strong foundation in computer science and engineering principles"),
        .str ("Research experience in ML and AI systems")])]))

/-- get_job_titles (lines 370-384). -/
def get_job_titles : Except PyErr CallToolResult :=
  .ok (jsonResult (.dict
    [("primary_titles", .list (PROFILE_job_titles.map .str)),
     ("alternative_titles", .list
       [.str ("ML Platform Engineer"),
        .str ("AI/ML Infrastructure Engineer"),
        .str ("Senior Software Engineer - AI"),
        .str ("LLM Operations Engineer"),
        .str ("AI Tooling Engineer")])]))

/-- One entry of the skills_list of get_all_skills (lines 390-398): id, name and
description, with keywords appended only under the flag. -/
def allSkillEntry (include_keywords : Bool) (p : String × Skill) : PyValue :=
  .dict ([("id", .str p.1),
          ("name", .str p.2.name),
          ("description", .str p.2.description)] ++
         (if include_keywords then [("keywords", .list (p.2.keywords.map .str))] else []))

/-- The skills_list built by the loop of get_all_skills, in store order. -/
def allSkillsEntries (include_keywords : Bool) : List PyValue :=
  SKILLS.map (allSkillEntry include_keywords)

/-- get_all_skills (lines 387-406). -/
def get_all_skills (include_keywords : Bool) : Except PyErr CallToolResult :=
  .ok (jsonResult (.dict
    [("total", .int (allSkillsEntries include_keywords).length),
     ("skills", .list (allSkillsEntries include_keywords))]))

/-- get_skill (lines 409-425): full record on a valid id, a not-found message
enumerating every store id otherwise. -/
def get_skill (skill_id : String) : Except PyErr CallToolResult :=
  match SKILLS.lookup skill_id with
  | none =>
    .ok (textResult ("Skill \x27" ++ skill_id ++ "\x27 not found. Available skills: " ++
      pyRepr (.list ((SKILLS.map Prod.fst).map .str))))
  | some skill =>
    .ok (jsonResult (.dict
      [("id", .str skill_id),
       ("name", .str skill.name),
       ("description", .str skill.description),
       ("keywords", .list (skill.keywords.map .str))]))

/-- The category_names dict of get_skills_by_category (lines 435-441). -/
def categoryNames : List (String × String) :=
  [("ai_ml", "AI & Machine Learning"),
   ("infrastructure", "Infrastructure & Cloud"),
   ("backend", "Backend & Data Systems"),
   ("security_ops", "Security & Operations"),
   ("community", "Community & Open Source")]

/-- One entry of the loop body of get_skills_by_category (lines 445-451): the
subscript SKILLS[skill_id] raises KeyError when the id is dangling. -/
def categoryEntry (skill_id : String) : Except PyErr PyValue :=
  match SKILLS.lookup skill_id with
  | none => .error (.keyError skill_id)
  | some skill =>
    .ok (.dict [("id", .str skill_id),
                ("name", .str skill.name),
                ("description", .str skill.description)])

/-- get_skills_by_category (lines 428-461). -/
def get_skills_by_category (category : String) : Except PyErr CallToolResult :=
  match SKILL_CATEGORIES.lookup category with
  | none =>
    .ok (textResult ("Category \x27" ++ category ++ "\x27 not found. Available: " ++
      pyRepr (.list ((SKILL_CATEGORIES.map Prod.fst).map .str))))
  | some skill_ids =>
    (skill_ids.mapM categoryEntry).map (fun skills_list =>
      jsonResult (.dict
        [("category", .str category),
         ("category_name", .str ((categoryNames.lookup category).getD category)),
         ("count", .int skills_list.length),
         ("skills", .list skills_list)]))

/-- The searchable text of one record (lines 471-475): lower-cased name,
lower-cased description and lower-cased space-joined keywords, joined by
single spaces. -/
def searchableText (s : Skill) : String :=
  pyLower s.name ++ " " ++ pyLower s.description ++ " " ++ pyLower (spaceJoin s.keywords)

/-- One match entry of search_skills (lines 478-483); matching_keywords keeps
exactly the keywords whose lower-cased form contains the lowered query. -/
def searchEntry (query_lower : String) (p : String × Skill) : PyValue :=
  .dict [("id", .str p.1),
         ("name", .str p.2.name),
         ("description", .str p.2.description),
         ("matching_keywords",
          .list ((p.2.keywords.filter (fun k => pyContains (pyLower k) query_lower)).map .str))]

/-- The matching loop of search_skills (lines 469-483), in store order. -/
def searchLoop (query_lower : String) : List (String × Skill) → List PyValue
  | [] => []
  | p :: rest =>
    if pyContains (searchableText p.2) query_lower then
      searchEntry query_lower p :: searchLoop query_lower rest
    else
      searchLoop query_lower rest

/-- The matches computed by search_skills for a query. -/
def searchMatches (query : String) : List PyValue :=
  searchLoop (pyLower query) SKILLS

/-- search_skills (lines 464-492). -/
def search_skills (query : String) : Except PyErr CallToolResult :=
  .ok (jsonResult (.dict
    [("query", .str query),
     ("matches", .int (searchMatches query).length),
     ("skills", .list (searchMatches query))]))

/-- get_summary (lines 495-510). -/
def get_summary : Except PyErr CallToolResult :=
  .ok (jsonResult (.dict
    [("summary", .str PROFILE_summary),
     ("key_strengths", .list
       [.str ("End-to-end LLM pipeline development"),
        .str ("Agentic AI system design"),
        .str ("MCP server development"),
        .str ("Cloud-native AI infrastructure"),
        .str ("Production ML systems")]),
     ("education", .str ("Master\x27s from " ++ PROFILE_university))]))

/-- get_technologies (lines 513-538): the deduplicated, lexicographically
sorted union of all keywords, plus the fixed editorial sub-lists. -/
def get_technologies : Except PyErr CallToolResult :=
  .ok (jsonResult (.dict
    [("languages", .list [.str ("Python"), .str ("Go"), .str ("Java"), .str ("TypeScript")]),
     ("cloud_platforms", .list
       [.str ("AWS"), .str ("Azure"), .str ("GCP"), .str ("Kubernetes"), .str ("containers")]),
     ("data_technologies", .list
       [.str ("Kafka"), .str ("Elasticsearch"), .str ("Redis"), .str ("PostgreSQL"),
        .str ("ETL"), .str ("streaming")]),
     ("ai_ml_technologies", .list
       [.str ("LLM"), .str ("ML models"), .str ("RAG"), .str ("tokenization"), .str ("AI agents")]),
     ("devops_tools", .list
       [.str ("Jenkins"), .str ("GitLab"), .str ("Azure DevOps"), .str ("Spinnaker"), .str ("CI/CD")]),
     ("monitoring_tools", .list
       [.str ("Prometheus"), .str ("Grafana"), .str ("Kibana"), .str ("Dynatrace")]),
     ("all_keywords",
      .list ((((SKILLS.map (fun p => p.2.keywords)).flatten.dedup).mergeSort
        (fun a b => a ≤ b)).map .str))]))

/-! ## The dispatcher (src/mcp-server.py lines 291-323) -/

/-- The argument record delivered with a tool invocation. -/
abbrev Args := List (String × PyValue)

/-- Embedding of `arguments[k]`: the value, or a KeyError when absent. -/
def argsGetItem (args : Args) (k : String) : Except PyErr PyValue :=
  match args.lookup k with
  | some v => .ok v
  | none => .error (.keyError k)

/-- Embedding of `arguments.get(k, d)`. -/
def argsGetD (args : Args) (k : String) (d : PyValue) : PyValue :=
  (args.lookup k).getD d

/-- The body of the try block of call_tool: the if/elif dispatch on the tool name
(lines 296-319).  Required arguments are subscripted before the handler is
applied, so a missing one short-circuits to a KeyError without invoking the
handler. -/
def dispatchTool (name : String) (args : Args) : Except PyErr CallToolResult :=
  match name with
  | "get_profile" => get_profile
  | "get_contact" => get_contact
  | "get_education" => get_education
  | "get_job_titles" => get_job_titles
  | "get_all_skills" =>
    get_all_skills (pyTruthy (argsGetD args ("include_keywords") (.bool false)))
  | "get_skill" =>
    (argsGetItem args ("skill_id")).bind (fun v => get_skill (pyStr v))
  | "get_skills_by_category" =>
    (argsGetItem args ("category")).bind (fun v => get_skills_by_category (pyStr v))
  | "search_skills" =>
    (argsGetItem args ("query")).bind (fun v => search_skills (pyStr v))
  | "get_summary" => get_summary
  | "get_technologies" => get_technologies
  | _ => .ok (textResult ("Unknown tool: " ++ name))

/-- call_tool (lines 291-323): the try/except wrapper that converts any raised
exception into a plain-text error envelope. -/
def call_tool (name : String) (args : Args) : CallToolResult :=
  match dispatchTool name args with
  | .ok r => r
  | .error e => textResult ("Error executing " ++ name ++ ": " ++ pyErrStr e)

/-- The names of the ten tools advertised by list_tools (lines 173-285). -/
def toolNames : List String :=
  ["get_profile", "get_contact", "get_education", "get_job_titles",
   "get_all_skills", "get_skill", "get_skills_by_category", "search_skills",
   "get_summary", "get_technologies"]

/-! ## Helper lemmas -/

theorem searchLoop_eq (ql : String) (l : List (String × Skill)) :
    searchLoop ql l =
      (l.filter (fun p => pyContains (searchableText p.2) ql)).map (searchEntry ql) := by
  induction l with
  | nil => rfl
  | cons p rest ih =>
    cases hb : pyContains (searchableText p.2) ql <;>
      simp [searchLoop, List.filter_cons, hb, ih]

theorem lookup_categories_cases (c : String) (ids : List String)
    (h : SKILL_CATEGORIES.lookup c = some ids) :
    (c = "ai_ml" ∧ ids = ["llm_systems_engineering", "agentic_automation",
       "mcp_development", "machine_learning", "research_optimization"]) ∨
    (c = "infrastructure" ∧ ids = ["ai_infrastructure", "cloud_platforms", "devops_cicd"]) ∨
    (c = "backend" ∧ ids = ["backend_api", "data_streaming"]) ∨
    (c = "security_ops" ∧ ids = ["security_threat_intel", "monitoring_observability"]) ∨
    (c = "community" ∧ ids = ["open_source"]) := by
  simp only [SKILL_CATEGORIES, List.lookup] at h
  split at h
  · rename_i heq
    exact Or.inl ⟨eq_of_beq heq, (Option.some.inj h).symm⟩
  · split at h
    · rename_i heq
      exact Or.inr (Or.inl ⟨eq_of_beq heq, (Option.some.inj h).symm⟩)
    · split at h
      · rename_i heq
        exact Or.inr (Or.inr (Or.inl ⟨eq_of_beq heq, (Option.some.inj h).symm⟩))
      · split at h
        · rename_i heq
          exact Or.inr (Or.inr (Or.inr (Or.inl ⟨eq_of_beq heq, (Option.some.inj h).symm⟩)))
        · split at h
          · rename_i heq
            exact Or.inr (Or.inr (Or.inr (Or.inr ⟨eq_of_beq heq, (Option.some.inj h).symm⟩)))
          · exact absurd h (by simp [List.lookup])

/-- The result, when a computation returns one, is a single-content envelope. -/
def okLen1 (x : Except PyErr CallToolResult) : Prop :=
  ∀ r, x = .ok r → r.content.length = 1

theorem okLen1_bind (x : Except PyErr PyValue) (g : PyValue → Except PyErr CallToolResult)
    (hg : ∀ v, okLen1 (g v)) : okLen1 (x.bind g) := by
  intro r h
  cases x with
  | error e => simp [Except.bind] at h
  | ok v => exact hg v r (by simpa [Except.bind] using h)

theorem okLen1_get_skill (x : String) : okLen1 (get_skill x) := by
  intro r h
  unfold get_skill at h
  split at h <;> (cases h; rfl)

theorem okLen1_category (c : String) : okLen1 (get_skills_by_category c) := by
  intro r h
  unfold get_skills_by_category at h
  split at h
  · cases h; rfl
  · rename_i ids heq
    cases hm : ids.mapM categoryEntry with
    | error e => rw [hm] at h; simp [Except.map] at h
    | ok l =>
      rw [hm] at h
      simp only [Except.map] at h
      cases h; rfl

theorem okLen1_dispatch (name : String) (args : Args) : okLen1 (dispatchTool name args) := by
  unfold dispatchTool
  split
  · intro r h; cases h; rfl
  · intro r h; cases h; rfl
  · intro r h; cases h; rfl
  · intro r h; cases h; rfl
  · intro r h; cases h; rfl
  · exact okLen1_bind _ _ (fun v => okLen1_get_skill (pyStr v))
  · exact okLen1_bind _ _ (fun v => okLen1_category (pyStr v))
  · exact okLen1_bind _ _ (fun v => (fun r h => by cases h; rfl))
  · intro r h; cases h; rfl
  · intro r h; cases h; rfl
  · intro r h; cases h; rfl

theorem dispatch_unknown (name : String) (args : Args) (h : name ∉ toolNames) :
    dispatchTool name args = .ok (textResult ("Unknown tool: " ++ name)) := by
  unfold dispatchTool
  split
  · simp [toolNames] at h
  · simp [toolNames] at h
  · simp [toolNames] at h
  · simp [toolNames] at h
  · simp [toolNames] at h
  · simp [toolNames] at h
  · simp [toolNames] at h
  · simp [toolNames] at h
  · simp [toolNames] at h
  · simp [toolNames] at h
  · rfl

/-! ## Spec-side definitions for the search refinement

These three definitions follow the words of the specification for `search`, to be
compared with the embedded search_skills. -/

/-- Spec wording: the searchable text is the display name, the description and
the space-joined keyword list, in order, all lower-cased. -/
def specSearchableText (s : Skill) : String :=
  pyLower s.name ++ " " ++ pyLower s.description ++ " " ++ pyLower (spaceJoin s.keywords)

/-- Spec wording: a record matches iff the lower-cased query is a substring of
its searchable text. -/
def specIsMatch (q : String) (s : Skill) : Bool :=
  pyContains (specSearchableText s) (pyLower q)

/-- Spec wording: the subsequence of the keywords of the record, in original order
and casing, whose lower-cased form contains the lower-cased query. -/
def specMatchingKeywords (q : String) (s : Skill) : List String :=
  s.keywords.filter (fun k => pyContains (pyLower k) (pyLower q))

/-- Is an Except-valued computation successful? -/
def exceptIsOk {α : Type} : Except PyErr α → Bool
  | .ok _ => true
  | .error _ => false

/-! ## Claim theorems -/

/-- Claim C1: the contact component holds the network-profile URL and the
handle as two separately keyed string fields, and get_contact returns both
with their configured values.  This is proved of the intent model
PROFILE_contact; the source text itself is a SyntaxError (missing comma,
lines 37-40), so the claim is settled as a code bug, not against running
code. -/
theorem contact_fields_intended :
    get_contact = .ok (jsonResult (.dict
      [("name", .str PROFILE_name),
       ("linkedin", .str ("https://linkedin.com/in/madhaviai")),
       ("linkedin_username", .str ("madhaviai")),
       ("connect_message",
        .str ("Feel free to connect on LinkedIn to discuss AI, LLMs, and engineering!"))]))
    ∧ PROFILE_contact.lookup ("linkedin") = some (.str ("https://linkedin.com/in/madhaviai"))
    ∧ PROFILE_contact.lookup ("linkedin_username") = some (.str ("madhaviai")) :=
  ⟨rfl, rfl, rfl⟩

/-- Claim C2, counterexample: the claimed concrete scenario is false — in
search("mcp") the entry for "mcp_development" carries matching_keywords
["MCP"], not ["MCP", "Model Context Protocol"]: the lower-cased form of
"Model Context Protocol" does not contain "mcp" as a substring. -/
theorem search_mcp_scenario_refuted :
    ((searchMatches ("mcp")).filter
        (fun e => dictGetStr e ("id") == some ("mcp_development"))).map
        (fun e => dictGetStrList e ("matching_keywords")) = [some (["MCP"])]
    ∧ ¬ ∃ e ∈ searchMatches ("mcp"),
        dictGetStr e ("id") = some ("mcp_development") ∧
        dictGetStrList e ("matching_keywords") =
          some (["MCP", "Model Context Protocol"]) :=
  ⟨rfl, by decide⟩

/-- Claim C2 (amended): for every query q, search returns exactly the records
whose spec-side searchable text contains the lowered query, in store order,
each carrying matching_keywords equal to the spec-side keyword subsequence;
and search("mcp") includes the "mcp_development" record with
matching_keywords ["MCP"]. -/
theorem search_matches_spec (q : String) :
    searchMatches q =
      (SKILLS.filter (fun p => specIsMatch q p.2)).map (fun p =>
        .dict [("id", .str p.1),
               ("name", .str p.2.name),
               ("description", .str p.2.description),
               ("matching_keywords", .list ((specMatchingKeywords q p.2).map .str))])
    ∧ ∃ e ∈ searchMatches ("mcp"),
        dictGetStr e ("id") = some ("mcp_development") ∧
        dictGetStrList e ("matching_keywords") = some (["MCP"]) := by
  constructor
  · rw [searchMatches, searchLoop_eq]
    rfl
  · decide

/-- Claim C3: for each operation with a declared-required argument, an
argument record lacking it makes the dispatcher fail with the error text
naming the operation and the argument (the KeyError is raised by the argument
subscript, before the handler is applied). -/
theorem missing_required_argument (args : Args) :
    (args.lookup ("skill_id") = none →
      call_tool ("get_skill") args =
        textResult ("Error executing get_skill: \x27skill_id\x27"))
    ∧ (args.lookup ("category") = none →
      call_tool ("get_skills_by_category") args =
        textResult ("Error executing get_skills_by_category: \x27category\x27"))
    ∧ (args.lookup ("query") = none →
      call_tool ("search_skills") args =
        textResult ("Error executing search_skills: \x27query\x27")) := by
  refine ⟨?_, ?_, ?_⟩ <;> intro h
  · have h1 : dispatchTool ("get_skill") args =
        (argsGetItem args ("skill_id")).bind (fun v => get_skill (pyStr v)) := rfl
    unfold call_tool
    rw [h1]
    unfold argsGetItem
    rw [h]
    rfl
  · have h1 : dispatchTool ("get_skills_by_category") args =
        (argsGetItem args ("category")).bind (fun v => get_skills_by_category (pyStr v)) := rfl
    unfold call_tool
    rw [h1]
    unfold argsGetItem
    rw [h]
    rfl
  · have h1 : dispatchTool ("search_skills") args =
        (argsGetItem args ("query")).bind (fun v => search_skills (pyStr v)) := rfl
    unfold call_tool
    rw [h1]
    unfold argsGetItem
    rw [h]
    rfl

/-- Claim C3 witness: with the empty argument record all three required-argument
operations produce the missing-argument error text. -/
theorem missing_required_argument_witness :
    call_tool ("get_skill") [] =
      textResult ("Error executing get_skill: \x27skill_id\x27")
    ∧ call_tool ("get_skills_by_category") [] =
      textResult ("Error executing get_skills_by_category: \x27category\x27")
    ∧ call_tool ("search_skills") [] =
      textResult ("Error executing search_skills: \x27query\x27") :=
  ⟨(missing_required_argument []).1 rfl,
   (missing_required_argument []).2.1 rfl,
   (missing_required_argument []).2.2 rfl⟩

/-- Claim C4: get_skill succeeds exactly on store keys — a valid id yields the
full record (same id, and the construction-time keywords in order), an invalid
id yields the not-found text enumerating every store id, and no input raises. -/
theorem fetch_skill_contract (x : String) :
    (∀ s, SKILLS.lookup x = some s →
      get_skill x = .ok (jsonResult (.dict
        [("id", .str x),
         ("name", .str s.name),
         ("description", .str s.description),
         ("keywords", .list (s.keywords.map .str))])))
    ∧ (SKILLS.lookup x = none →
      get_skill x = .ok (textResult ("Skill \x27" ++ x ++ "\x27 not found. Available skills: " ++
        pyRepr (.list ((SKILLS.map Prod.fst).map .str)))))
    ∧ (∃ r, get_skill x = .ok r) := by
  refine ⟨?_, ?_, ?_⟩
  · intro s h
    unfold get_skill
    rw [h]
  · intro h
    unfold get_skill
    rw [h]
  · unfold get_skill
    cases h : SKILLS.lookup x with
    | none => exact ⟨_, rfl⟩
    | some s => exact ⟨_, rfl⟩

/-- Claim C4 witness: the valid id "mcp_development" returns its full record
and the invalid id "nonexistent" returns the enumerating not-found text. -/
theorem fetch_skill_contract_witness :
    get_skill ("mcp_development") = .ok (jsonResult (.dict
      [("id", .str ("mcp_development")),
       ("name", .str ("MCP Development")),
       ("description",
        .str ("Creates scalable Model Context Protocol servers and automation frameworks " ++
          "for seamless AI tool integration across product ecosystems.")),
       ("keywords", .list [.str ("MCP"), .str ("Model Context Protocol"),
         .str ("tool integration"), .str ("automation frameworks")])]))
    ∧ get_skill ("nonexistent") = .ok (textResult
        ("Skill \x27" ++ "nonexistent" ++ "\x27 not found. Available skills: " ++
          pyRepr (.list ((SKILLS.map Prod.fst).map .str)))) :=
  ⟨(fetch_skill_contract ("mcp_development")).1
    ⟨"MCP Development",
     "Creates scalable Model Context Protocol servers and automation frameworks " ++
     "for seamless AI tool integration across product ecosystems.",
     ["MCP", "Model Context Protocol", "tool integration", "automation frameworks"]⟩ rfl,
   (fetch_skill_contract ("nonexistent")).2.1 rfl⟩

/-- Claim C5: a valid category id yields the category id, its display name,
count equal to its member-list length, and the members in configured order
projected without keywords (the member-loop succeeds for every configured id);
an unknown string yields the not-found text listing all category ids; and
"ai_ml" concretely yields its five members in order. -/
theorem category_contract (c : String) :
    (∀ ids, SKILL_CATEGORIES.lookup c = some ids →
      ∃ entries, ids.mapM categoryEntry = Except.ok entries ∧
        entries.length = ids.length ∧
        get_skills_by_category c = .ok (jsonResult (.dict
          [("category", .str c),
           ("category_name", .str ((categoryNames.lookup c).getD c)),
           ("count", .int ids.length),
           ("skills", .list entries)])) ∧
        entries.all (fun e => (dictGet e ("keywords")).isNone) = true ∧
        entries.map (fun e => dictGetStr e ("id")) = ids.map some)
    ∧ (SKILL_CATEGORIES.lookup c = none →
      get_skills_by_category c = .ok (textResult
        ("Category \x27" ++ c ++ "\x27 not found. Available: " ++
          pyRepr (.list ((SKILL_CATEGORIES.map Prod.fst).map .str)))))
    ∧ get_skills_by_category ("ai_ml") = .ok (jsonResult (.dict
        [("category", .str ("ai_ml")),
         ("category_name", .str ("AI & Machine Learning")),
         ("count", .int 5),
         ("skills", .list
           [.dict [("id", .str ("llm_systems_engineering")),
                   ("name", .str ("LLM Systems Engineering")),
                   ("description", .str ("Builds end-to-end LLM pipelines, agentic workflows, and context-optimized " ++
                     "systems using advanced tokenization, retrieval, and orchestration patterns."))],
            .dict [("id", .str ("agentic_automation")),
                   ("name", .str ("Agentic Automation")),
                   ("description", .str ("Designs autonomous, multi-step, self-correcting AI agents with tool-use, " ++
                     "workflow chaining, and intelligent execution loops."))],
            .dict [("id", .str ("mcp_development")),
                   ("name", .str ("MCP Development")),
                   ("description", .str ("Creates scalable Model Context Protocol servers and automation frameworks " ++
                     "for seamless AI tool integration across product ecosystems."))],
            .dict [("id", .str ("machine_learning")),
                   ("name", .str ("Machine Learning Engineering")),
                   ("description", .str ("Develops robust ML models, anomaly detection systems, and data-driven pipelines " ++
                     "with strong emphasis on model behavior, evaluation, and interpretability."))],
            .dict [("id", .str ("research_optimization")),
                   ("name", .str ("Research & Model Optimization")),
                   ("description", .str ("Performs research on tokenization, representation learning, model robustness, " ++
                     "and data efficiency to enhance LLM interpretability and performance."))]])])) := by
  refine ⟨?_, ?_, rfl⟩
  · intro ids h
    rcases lookup_categories_cases c ids h with
      ⟨hc, hi⟩ | ⟨hc, hi⟩ | ⟨hc, hi⟩ | ⟨hc, hi⟩ | ⟨hc, hi⟩ <;>
      subst hc <;> subst hi <;> exact ⟨_, rfl, rfl, rfl, rfl, rfl⟩
  · intro h
    unfold get_skills_by_category
    rw [h]

/-- Claim C5 witness: the valid category "ai_ml" and the invalid category
"robotics" instantiate both implications. -/
theorem category_contract_witness :
    (∃ entries,
      (["llm_systems_engineering", "agentic_automation", "mcp_development",
        "machine_learning", "research_optimization"]).mapM categoryEntry = Except.ok entries ∧
      entries.length = 5 ∧
      get_skills_by_category ("ai_ml") = .ok (jsonResult (.dict
        [("category", .str ("ai_ml")),
         ("category_name", .str ((categoryNames.lookup ("ai_ml")).getD ("ai_ml"))),
         ("count", .int 5),
         ("skills", .list entries)])) ∧
      entries.all (fun e => (dictGet e ("keywords")).isNone) = true ∧
      entries.map (fun e => dictGetStr e ("id")) =
        (["llm_systems_engineering", "agentic_automation", "mcp_development",
          "machine_learning", "research_optimization"]).map some)
    ∧ get_skills_by_category ("robotics") = .ok (textResult
        ("Category \x27" ++ "robotics" ++ "\x27 not found. Available: " ++
          pyRepr (.list ((SKILL_CATEGORIES.map Prod.fst).map .str)))) :=
  ⟨(category_contract ("ai_ml")).1
     (["llm_systems_engineering", "agentic_automation", "mcp_development",
       "machine_learning", "research_optimization"]) rfl,
   (category_contract ("robotics")).2.1 rfl⟩

/-- Claim C6: the empty query matches every record and returns all of them in
store order. -/
theorem empty_query_pass_through :
    (searchMatches ("")).length = SKILLS.length
    ∧ (searchMatches ("")).map (fun e => dictGetStr e ("id")) =
        SKILLS.map (fun p => some p.1) :=
  ⟨rfl, rfl⟩

/-- Claim C8: the dispatcher always returns a single-content envelope; an
unknown operation name yields the unknown-tool text, and any exception raised
during dispatch is converted to the error text naming the operation and the
message. -/
theorem dispatcher_total_envelope (name : String) (args : Args) :
    (call_tool name args).content.length = 1
    ∧ (name ∉ toolNames → call_tool name args = textResult ("Unknown tool: " ++ name))
    ∧ (∀ e, dispatchTool name args = .error e →
        call_tool name args = textResult ("Error executing " ++ name ++ ": " ++ pyErrStr e)) := by
  refine ⟨?_, ?_, ?_⟩
  · unfold call_tool
    cases hd : dispatchTool name args with
    | ok r => exact okLen1_dispatch name args r hd
    | error e => rfl
  · intro h
    unfold call_tool
    rw [dispatch_unknown name args h]
  · intro e h
    unfold call_tool
    rw [h]

/-- Claim C8 witness: a name outside the tool set yields the unknown-tool
text, and a dispatch that raises (missing category argument) yields the
converted error text. -/
theorem dispatcher_total_envelope_witness :
    call_tool ("frobnicate") [] = textResult ("Unknown tool: frobnicate")
    ∧ call_tool ("get_skills_by_category") [] =
        textResult ("Error executing get_skills_by_category: \x27category\x27") :=
  ⟨(dispatcher_total_envelope ("frobnicate") []).2.1 (by decide),
   (dispatcher_total_envelope ("get_skills_by_category") []).2.2 (.keyError ("category")) rfl⟩

/-- Claim C9: get_all_skills always succeeds, returning every record in store
order; the dispatcher supplies false when include_keywords is absent; with the
flag off no entry has a keywords field, with it on the keywords of each entry equal
the stored list for that record. -/
theorem list_all_contract (args : Args) (b : Bool) :
    (args.lookup ("include_keywords") = none →
      dispatchTool ("get_all_skills") args = get_all_skills false)
    ∧ get_all_skills b = .ok (jsonResult (.dict
        [("total", .int SKILLS.length),
         ("skills", .list (allSkillsEntries b))]))
    ∧ (allSkillsEntries b).map (fun e => dictGetStr e ("id")) =
        SKILLS.map (fun p => some p.1)
    ∧ (allSkillsEntries false).all (fun e => (dictGet e ("keywords")).isNone) = true
    ∧ (allSkillsEntries true).map (fun e => dictGetStrList e ("keywords")) =
        SKILLS.map (fun p => some p.2.keywords) := by
  refine ⟨?_, ?_, ?_, rfl, rfl⟩
  · intro h
    have h1 : dispatchTool ("get_all_skills") args =
        get_all_skills (pyTruthy (argsGetD args ("include_keywords") (.bool false))) := rfl
    rw [h1]
    unfold argsGetD
    rw [h]
    rfl
  · simp [get_all_skills, allSkillsEntries]
  · cases b <;> rfl

/-- Claim C9 witness: the empty argument record makes the dispatcher call
get_all_skills with the flag off. -/
theorem list_all_contract_witness :
    dispatchTool ("get_all_skills") [] = get_all_skills false :=
  (list_all_contract [] false).1 rfl

/-- Claim C10: every skill id referenced by a category member-list is a key of
the store (so the category member-loop succeeds on every configured category),
and member-lists of distinct categories are disjoint. -/
theorem static_data_integrity :
    (SKILL_CATEGORIES.all (fun p => p.2.all (fun i => (SKILLS.lookup i).isSome))) = true
    ∧ (SKILL_CATEGORIES.all (fun p => SKILL_CATEGORIES.all (fun q =>
        (p.1 == q.1) || p.2.all (fun i => !(q.2.contains i))))) = true
    ∧ (SKILL_CATEGORIES.all (fun p => exceptIsOk (p.2.mapM categoryEntry))) = true :=
  ⟨rfl, rfl, rfl⟩

end ProfileMcp
